import Mathlib

/-!
Verification of the design-patterns demo repository.

The repository contains two independent console demos:

* `design-patterns/behavioral/template_method.py` — the Algorithm Skeleton
  Runner (Template Method pattern): an abstract class `DeepLearningModel`
  whose `execute` calls seven steps in a fixed order; concrete subclasses
  `ModelV1` and `ModelV2` supply the two required operations and may
  override the optional hooks.
* `design-patterns/creational/factory_method.py` — the Product Family
  Selector (Factory Method pattern): two product categories (image and
  audio exporters), two concrete factories pairing one product of each
  category, and a console prompt loop `choose_exporter_type` selecting a
  factory by label.

The embedding below models console output as explicit `List String` values
(one element per `print` call, plus one element for the text passed to
`input`), console input as an explicit list of lines, and Python's
abstract-method enforcement (`abc.ABC` with `@abstractmethod`) as a
fallible `instantiate` step on a declaration record whose required methods
are `Option`-valued.
-/

/-! ## Algorithm Skeleton Runner (template_method.py) -/

/-- The seven step names invoked by `DeepLearningModel.execute`. -/
inductive Step where
  | first_required_operation
  | first_layer
  | first_hook
  | second_required_operation
  | second_layer
  | second_hook
  | third_layer
deriving DecidableEq

/-- Whether a step is one of the two optional hooks. -/
def Step.isHook : Step → Bool
  | .first_hook => true
  | .second_hook => true
  | _ => false

/-- Body of `DeepLearningModel.first_layer`: `print("Passed through layer 1 ...")`. -/
def first_layer_body : List String := ["Passed through layer 1 ..."]

/-- Body of `DeepLearningModel.second_layer`: `print("Passed through layer 2 ...")`. -/
def second_layer_body : List String := ["Passed through layer 2 ..."]

/-- Body of `DeepLearningModel.third_layer`: `print("Passed through layer 3 ...")`. -/
def third_layer_body : List String := ["Passed through layer 3 ..."]

/-- Default body of the hooks `first_hook` / `second_hook`: `pass`, printing nothing. -/
def hook_default_body : List String := []

/-- A subclass declaration of `DeepLearningModel`: which methods the subclass
defines, each body modelled by the list of lines it prints. The two required
operations are `@abstractmethod` in the base class, so the base provides no
usable body for them; the layers and hooks have base-class bodies and an
override is optional. (`execute` itself is the template method and is not
redefined by any subclass in the source.) -/
structure VariantDecl where
  first_required_operation : Option (List String)
  second_required_operation : Option (List String)
  first_layer : Option (List String) := none
  second_layer : Option (List String) := none
  third_layer : Option (List String) := none
  first_hook : Option (List String) := none
  second_hook : Option (List String) := none

/-- A fully resolved instance: every method of `DeepLearningModel` has a body. -/
structure DeepLearningModel where
  first_required_operation : List String
  second_required_operation : List String
  first_layer : List String
  second_layer : List String
  third_layer : List String
  first_hook : List String
  second_hook : List String
deriving DecidableEq

/-- Python instantiation of a subclass of the abstract base `DeepLearningModel`:
`abc.ABCMeta` raises `TypeError` (here: `none`) when any `@abstractmethod`
(the two required operations) is left without an implementation; otherwise
method resolution takes the subclass override when present and the base-class
body otherwise. -/
def instantiate (d : VariantDecl) : Option DeepLearningModel :=
  match d.first_required_operation, d.second_required_operation with
  | some fro, some sro =>
    some { first_required_operation := fro
           second_required_operation := sro
           first_layer := d.first_layer.getD first_layer_body
           second_layer := d.second_layer.getD second_layer_body
           third_layer := d.third_layer.getD third_layer_body
           first_hook := d.first_hook.getD hook_default_body
           second_hook := d.second_hook.getD hook_default_body }
  | _, _ => none

/-- The template method `DeepLearningModel.execute`, transcribed call for call:
it invokes the seven steps in the order written in the source and each step
emits the lines of its body. The trace records, in invocation order, which
step ran and what it printed. -/
def DeepLearningModel.executeTrace (m : DeepLearningModel) : List (Step × List String) :=
  [(Step.first_required_operation, m.first_required_operation),
   (Step.first_layer, m.first_layer),
   (Step.first_hook, m.first_hook),
   (Step.second_required_operation, m.second_required_operation),
   (Step.second_layer, m.second_layer),
   (Step.second_hook, m.second_hook),
   (Step.third_layer, m.third_layer)]

/-- The flat console output of one `execute()` call. -/
def DeepLearningModel.execute (m : DeepLearningModel) : List String :=
  (m.executeTrace.map Prod.snd).flatten

/-- The fixed step order hard-coded in the body of `execute`. -/
def executeOrder : List Step :=
  [Step.first_required_operation, Step.first_layer, Step.first_hook,
   Step.second_required_operation, Step.second_layer, Step.second_hook,
   Step.third_layer]

/-- `class ModelV1(DeepLearningModel)`: implements only the two required
operations. -/
def ModelV1 : VariantDecl :=
  { first_required_operation := some ["ModelV1 preprocessing before layer 1 ..."]
    second_required_operation := some ["ModelV1 preprocessing before layer 2 ..."] }

/-- `class ModelV2(DeepLearningModel)`: implements the two required operations
and overrides `first_hook`. -/
def ModelV2 : VariantDecl :=
  { first_required_operation := some ["ModelV2 preprocessing before layer 1 ..."]
    second_required_operation := some ["ModelV2 preprocessing before layer 2 ..."]
    first_hook := some ["Hook 1 triggered !"] }

/-- The instance `ModelV1()` after method resolution. -/
def modelV1Instance : DeepLearningModel :=
  { first_required_operation := ["ModelV1 preprocessing before layer 1 ..."]
    second_required_operation := ["ModelV1 preprocessing before layer 2 ..."]
    first_layer := first_layer_body
    second_layer := second_layer_body
    third_layer := third_layer_body
    first_hook := hook_default_body
    second_hook := hook_default_body }

/-- The instance `ModelV2()` after method resolution. -/
def modelV2Instance : DeepLearningModel :=
  { first_required_operation := ["ModelV2 preprocessing before layer 1 ..."]
    second_required_operation := ["ModelV2 preprocessing before layer 2 ..."]
    first_layer := first_layer_body
    second_layer := second_layer_body
    third_layer := third_layer_body
    first_hook := ["Hook 1 triggered !"]
    second_hook := hook_default_body }

/-- The declaration `d` with both optional hooks left at their base-class
default (used to compare a variant against its hookless counterpart). -/
def VariantDecl.withoutHooks (d : VariantDecl) : VariantDecl :=
  { d with first_hook := none, second_hook := none }

/-- `ModelV2` with its hook override removed, after method resolution. -/
def modelV2NoHooks : DeepLearningModel :=
  { modelV2Instance with first_hook := hook_default_body }

/-- Two successive `execute()` calls on the same instance, in trace form.
The Python objects hold no instance attributes, so each call reads only the
resolved method bodies; the combined trace is the concatenation of the two
calls' traces. -/
def clientTwice (m : DeepLearningModel) : List (Step × List String) :=
  m.executeTrace ++ m.executeTrace

/-! ## Product Family Selector (factory_method.py) -/

/-- The concrete subclasses of the abstract product interface
`ImageDataExporter` (category A). -/
inductive ImageDataExporter where
  | grayScale
  | noiseReduction
deriving DecidableEq

/-- `pre_process_data(self, image)` of each concrete image exporter: one
`print` call whose text does not use the `image` argument. -/
def ImageDataExporter.pre_process_data : ImageDataExporter → String → String
  | .grayScale, _image => "Pre-process image for gray scale."
  | .noiseReduction, _image => "Pre-process image for noise reduction."

/-- `export_data(self, folder)` of each concrete image exporter: one
f-string `print` interpolating `folder` at the end. -/
def ImageDataExporter.export_data : ImageDataExporter → String → String
  | .grayScale, folder => "Export image data in gray scale to " ++ folder
  | .noiseReduction, folder => "Export image data with less noise to " ++ folder

/-- The concrete subclasses of the abstract product interface
`AudioDataExporter` (category B). -/
inductive AudioDataExporter where
  | resampling
  | filter
deriving DecidableEq

/-- `pre_process_data(self, audio)` of each concrete audio exporter: one
`print` call whose text does not use the `audio` argument. -/
def AudioDataExporter.pre_process_data : AudioDataExporter → String → String
  | .resampling, _audio => "Pre-process audio for resampling."
  | .filter, _audio => "Pre-process audio for filtering."

/-- `export_data(self, folder)` of each concrete audio exporter. -/
def AudioDataExporter.export_data : AudioDataExporter → String → String
  | .resampling, folder => "Export audio data with resampling to " ++ folder
  | .filter, folder => "Export filtered audio data to " ++ folder

/-- The factory hierarchy. `exporterFactoryBase` is the base class
`ExporterFactory` itself: it derives from `abc.ABC` but neither of its two
getter methods carries `@abstractmethod`, so the class has no abstract
methods and is instantiable; its getter bodies consist of a docstring only
and therefore return `None`. -/
inductive ExporterFactory where
  | exporterFactoryBase
  | optionA
  | optionB
deriving DecidableEq

/-- The `@abstractmethod`-decorated methods left unimplemented, per class,
as `abc.ABCMeta` records them in `__abstractmethods__`. No method anywhere
in the `ExporterFactory` hierarchy is decorated `@abstractmethod`, so the
set is empty for every class, the base included. -/
def ExporterFactory.unimplementedAbstract : ExporterFactory → List String
  | _ => []

/-- Python instantiation of a factory class: `abc.ABCMeta` raises
`TypeError` (here: `none`) iff `__abstractmethods__` is nonempty. -/
def ExporterFactory.instantiateClass (c : ExporterFactory) : Option ExporterFactory :=
  if c.unimplementedAbstract.isEmpty then some c else none

/-- `get_image_data_exporter`: method resolution over the hierarchy. The
base-class body is a docstring alone, so it falls off the end and returns
`None`; each concrete factory returns its hard-coded product. -/
def ExporterFactory.get_image_data_exporter : ExporterFactory → Option ImageDataExporter
  | .exporterFactoryBase => none
  | .optionA => some ImageDataExporter.grayScale
  | .optionB => some ImageDataExporter.noiseReduction

/-- `get_audio_data_exporter`: method resolution over the hierarchy, with
the same `None`-returning base body. -/
def ExporterFactory.get_audio_data_exporter : ExporterFactory → Option AudioDataExporter
  | .exporterFactoryBase => none
  | .optionA => some AudioDataExporter.resampling
  | .optionB => some AudioDataExporter.filter

/-- The dict literal built at the top of `choose_exporter_type`, as an
association list: label to the factory instance constructed for it. -/
def factories : List (String × ExporterFactory) :=
  [("A", ExporterFactory.optionA), ("B", ExporterFactory.optionB)]

/-- `t in factories.keys()` followed by `factories[t]`, as one lookup. -/
def lookupFactory (t : String) : Option ExporterFactory :=
  (factories.find? (fun p => p.1 == t)).map Prod.snd

/-- The text passed to `input(...)` each iteration (shown as the prompt). -/
def promptText : String := "Choose the exporter type: (A) or (B)\n"

/-- The re-prompt message printed on invalid input. -/
def invalidText : String := "Please, enter a valid option. (A) or (B)."

/-- `choose_exporter_type` over an explicit list of input lines, returning
the console output emitted and the selected factory. Each iteration shows
the prompt and consumes one line; a valid label returns its factory at
once, any other line prints the re-prompt message and loops. The source
loop is `while True` with no iteration bound, so when the supplied lines
run out with no valid label the result is `none`: the loop is still
blocked reading, i.e. the call never returned within this input. -/
def choose_exporter_type : List String → List String × Option ExporterFactory
  | [] => ([], none)
  | t :: rest =>
    match lookupFactory t with
    | some f => ([promptText], some f)
    | none =>
      let r := choose_exporter_type rest
      (promptText :: invalidText :: r.1, r.2)

/-- The body of `main` after a factory has been selected: obtain one product
of each category, then `pre_process_data` on each (image `".jpeg"`, audio
`".mp3"`), then `export_data` on each (`"Downloads/"`). Were either getter
to return `None`, the subsequent attribute access would fail (`none`). -/
def driverOutput (factory : ExporterFactory) : Option (List String) :=
  match factory.get_image_data_exporter, factory.get_audio_data_exporter with
  | some ie, some ae =>
    some [ie.pre_process_data ".jpeg",
          ae.pre_process_data ".mp3",
          ie.export_data "Downloads/",
          ae.export_data "Downloads/"]
  | _, _ => none

/-- `main` of factory_method.py over an input-line list: the selector's
console output, and (when the selector returned) the driver's output.
(Named `factoryMain` because Lean reserves the top-level name `main`.) -/
def factoryMain (input : List String) : List String × Option (List String) :=
  let r := choose_exporter_type input
  match r.2 with
  | none => (r.1, none)
  | some factory => (r.1, driverOutput factory)

/-! ## Helper lemmas -/

/-- One loop iteration of `choose_exporter_type` on an invalid line: the
prompt and the re-prompt message are printed, and everything else is
decided by the remaining input. -/
theorem choose_cons_invalid (t : String) (rest : List String)
    (h : lookupFactory t = none) :
    choose_exporter_type (t :: rest) =
      (promptText :: invalidText :: (choose_exporter_type rest).1,
       (choose_exporter_type rest).2) := by
  simp [choose_exporter_type, h]

/-- One loop iteration of `choose_exporter_type` on a valid label: the
prompt is printed and the label's factory is returned at once. -/
theorem choose_cons_valid (t : String) (rest : List String) (f : ExporterFactory)
    (h : lookupFactory t = some f) :
    choose_exporter_type (t :: rest) = ([promptText], some f) := by
  simp [choose_exporter_type, h]

/-! ## Claims -/

/-- Claim C1: for every instantiable variant of the Skeleton Runner,
`execute()` invokes exactly the seven steps `first_required_operation`,
`first_layer`, `first_hook`, `second_required_operation`, `second_layer`,
`second_hook`, `third_layer`, in that strict order, whatever the variant
overrides. -/
theorem execute_invokes_seven_steps_in_order (d : VariantDecl)
    (m : DeepLearningModel) (_h : instantiate d = some m) :
    m.executeTrace.map Prod.fst = executeOrder :=
  rfl

theorem execute_invokes_seven_steps_in_order_witness :
    instantiate ModelV1 = some modelV1Instance ∧
    modelV1Instance.executeTrace.map Prod.fst = executeOrder :=
  ⟨rfl, execute_invokes_seven_steps_in_order ModelV1 modelV1Instance rfl⟩

/-- Claim C3: a variant that does not supply one of the two required steps
is not instantiable — `instantiate` fails, so no `DeepLearningModel` value
exists on which `execute` could be called. -/
theorem missing_required_step_not_instantiable (d : VariantDecl)
    (h : d.first_required_operation = none ∨ d.second_required_operation = none) :
    instantiate d = none := by
  rcases h with h | h
  · cases hs : d.second_required_operation <;> simp [instantiate, h, hs]
  · cases hf : d.first_required_operation <;> simp [instantiate, hf, h]

theorem missing_required_step_not_instantiable_witness :
    instantiate
      { first_required_operation := none
        second_required_operation := some ["ModelV1 preprocessing before layer 2 ..."] } = none :=
  missing_required_step_not_instantiable _ (Or.inl rfl)

/-- Claim C6: overriding zero, one or both optional hooks leaves the order
of the seven steps and the trace entries of the six non-hook steps exactly
as they are for the same variant with no hook overrides. -/
theorem hooks_do_not_affect_other_steps (d : VariantDecl)
    (m m0 : DeepLearningModel) (h : instantiate d = some m)
    (h0 : instantiate d.withoutHooks = some m0) :
    m.executeTrace.map Prod.fst = m0.executeTrace.map Prod.fst ∧
    m.executeTrace.filter (fun p => !p.1.isHook) =
      m0.executeTrace.filter (fun p => !p.1.isHook) := by
  cases hf : d.first_required_operation with
  | none => simp [instantiate, hf] at h
  | some fro =>
    cases hs : d.second_required_operation with
    | none => simp [instantiate, hf, hs] at h
    | some sro =>
      simp [instantiate, VariantDecl.withoutHooks, hf, hs] at h h0
      subst h h0
      exact ⟨rfl, rfl⟩

theorem hooks_do_not_affect_other_steps_witness :
    instantiate ModelV2 = some modelV2Instance ∧
    instantiate ModelV2.withoutHooks = some modelV2NoHooks ∧
    (modelV2Instance.executeTrace.map Prod.fst =
       modelV2NoHooks.executeTrace.map Prod.fst ∧
     modelV2Instance.executeTrace.filter (fun p => !p.1.isHook) =
       modelV2NoHooks.executeTrace.filter (fun p => !p.1.isHook)) :=
  ⟨rfl, rfl,
   hooks_do_not_affect_other_steps ModelV2 modelV2Instance modelV2NoHooks rfl rfl⟩

/-- Claim C7: running `execute()` twice on the same `ModelV1` or `ModelV2`
instance yields two identical traces — the second half of the combined
two-call trace equals the first half, which is one ordinary trace. The
objects hold no instance attributes, so no state flows between the calls. -/
theorem execute_twice_identical :
    (clientTwice modelV1Instance).take 7 = (clientTwice modelV1Instance).drop 7 ∧
    (clientTwice modelV2Instance).take 7 = (clientTwice modelV2Instance).drop 7 ∧
    (clientTwice modelV1Instance).take 7 = modelV1Instance.executeTrace ∧
    (clientTwice modelV2Instance).take 7 = modelV2Instance.executeTrace :=
  ⟨rfl, rfl, rfl, rfl⟩

/-- Claim C8 counterexample: the claim says every one of the seven steps,
the non-overridden optional hooks included, emits a line of text. It is
false on `ModelV1()`: its hooks keep the base-class `pass` body, so their
trace entries print nothing. -/
theorem default_hooks_emit_no_line_counterexample :
    ¬ (∀ p ∈ modelV1Instance.executeTrace, p.2 ≠ []) := by
  intro h
  exact h (Step.first_hook, []) (by simp [modelV1Instance,
    DeepLearningModel.executeTrace, hook_default_body]) rfl

/-- Claim C8 (amended): in the reference behavior each required step and
each fixed layer emits exactly one line describing itself and `execute()`
has no other observable effect, while a non-overridden optional hook emits
nothing; `ModelV2`'s overridden `first_hook` emits one line. -/
theorem steps_emit_lines_amended :
    (modelV1Instance.executeTrace.map fun p => p.2.length) = [1, 1, 0, 1, 1, 0, 1] ∧
    (modelV2Instance.executeTrace.map fun p => p.2.length) = [1, 1, 1, 1, 1, 0, 1] ∧
    modelV1Instance.executeTrace.map Prod.fst = executeOrder ∧
    modelV2Instance.executeTrace.map Prod.fst = executeOrder :=
  ⟨rfl, rfl, rfl, rfl⟩

/-- Claim C2: on the valid label "A" the selected factory is
`OptionAExporterFactory`, whose products are the gray-scale image exporter
and the resampling audio exporter, and the driver then emits exactly the
four lines image-preprocess, audio-preprocess, image-export, audio-export
in that order. -/
theorem option_a_family_and_driver_output :
    ExporterFactory.optionA.get_image_data_exporter =
      some ImageDataExporter.grayScale ∧
    ExporterFactory.optionA.get_audio_data_exporter =
      some AudioDataExporter.resampling ∧
    factoryMain ["A"] =
      ([promptText],
       some ["Pre-process image for gray scale.",
             "Pre-process audio for resampling.",
             "Export image data in gray scale to Downloads/",
             "Export audio data with resampling to Downloads/"]) := by
  refine ⟨rfl, rfl, ?_⟩
  decide

/-- Claim C4: any input line that is not exactly one of the labels "A" or
"B" makes the selector print the re-prompt message and read again; the
selected factory (and hence any later product construction) is decided
only by the remaining input. The witness instantiates the line "a",
showing the match is case-sensitive. -/
theorem invalid_input_reprompts (t : String) (rest : List String)
    (h : lookupFactory t = none) :
    choose_exporter_type (t :: rest) =
      (promptText :: invalidText :: (choose_exporter_type rest).1,
       (choose_exporter_type rest).2) :=
  choose_cons_invalid t rest h

theorem invalid_input_reprompts_witness :
    lookupFactory "a" = none ∧
    choose_exporter_type ["a", "A"] =
      (promptText :: invalidText :: (choose_exporter_type ["A"]).1,
       (choose_exporter_type ["A"]).2) :=
  ⟨by decide, invalid_input_reprompts "a" ["A"] (by decide)⟩

/-- Claim C5: the prompt loop has no iteration bound. Over a list of input
lines, the selector returns the factory of the first valid label, having
printed the re-prompt message once per preceding invalid line; and on
input consisting only of invalid lines it never returns (no finite amount
of such input produces a result). -/
theorem prompt_loop_unbounded :
    (∀ (pre : List String) (v : String) (rest : List String)
       (f : ExporterFactory),
        (∀ t ∈ pre, lookupFactory t = none) → lookupFactory v = some f →
        choose_exporter_type (pre ++ v :: rest) =
          ((pre.map fun _ => [promptText, invalidText]).flatten ++ [promptText],
           some f)) ∧
    (∀ input : List String, (∀ t ∈ input, lookupFactory t = none) →
        (choose_exporter_type input).2 = none) := by
  constructor
  · intro pre v rest f
    induction pre with
    | nil =>
      intro _ hv
      simpa using choose_cons_valid v rest f hv
    | cons t ts ih =>
      intro hpre hv
      have ht : lookupFactory t = none := hpre t (by simp)
      have hts : ∀ u ∈ ts, lookupFactory u = none := fun u hu => hpre u (by simp [hu])
      rw [List.cons_append, choose_cons_invalid t _ ht, ih hts hv]
      simp
  · intro input
    induction input with
    | nil => intro _; rfl
    | cons t ts ih =>
      intro hinput
      have ht : lookupFactory t = none := hinput t (by simp)
      rw [choose_cons_invalid t ts ht]
      exact ih (fun u hu => hinput u (by simp [hu]))

theorem prompt_loop_unbounded_witness :
    choose_exporter_type ["x", "A"] =
      ([promptText, invalidText, promptText], some ExporterFactory.optionA) ∧
    (choose_exporter_type ["x", "y"]).2 = none := by
  constructor
  · have h := prompt_loop_unbounded.1 ["x"] "A" [] ExporterFactory.optionA
      (by decide) (by decide)
    simpa using h
  · exact prompt_loop_unbounded.2 ["x", "y"] (by decide)

/-- Claim C9: the base class `ExporterFactory` carries no abstract methods,
so Python instantiates it without complaint, and both getters on it (the
inherited, docstring-only bodies) return `None` instead of failing at
construction time. -/
theorem exporter_factory_base_instantiable_getters_none :
    ExporterFactory.instantiateClass ExporterFactory.exporterFactoryBase =
      some ExporterFactory.exporterFactoryBase ∧
    ExporterFactory.exporterFactoryBase.get_image_data_exporter = none ∧
    ExporterFactory.exporterFactoryBase.get_audio_data_exporter = none :=
  ⟨rfl, rfl, rfl⟩

/-- Claim C10: for every concrete exporter of either category,
`pre_process_data` prints the same line whatever its data argument is, and
the line printed by `export_data` is a fixed stem followed by the folder
argument — it depends on nothing else. -/
theorem pre_process_ignores_data_argument :
    (∀ (e : ImageDataExporter) (a b : String),
       e.pre_process_data a = e.pre_process_data b) ∧
    (∀ (e : AudioDataExporter) (a b : String),
       e.pre_process_data a = e.pre_process_data b) ∧
    (∀ e : ImageDataExporter, ∃ stem : String,
       ∀ folder, e.export_data folder = stem ++ folder) ∧
    (∀ e : AudioDataExporter, ∃ stem : String,
       ∀ folder, e.export_data folder = stem ++ folder) := by
  refine ⟨?_, ?_, ?_, ?_⟩
  · intro e a b
    cases e <;> rfl
  · intro e a b
    cases e <;> rfl
  · intro e
    cases e with
    | grayScale => exact ⟨"Export image data in gray scale to ", fun _ => rfl⟩
    | noiseReduction => exact ⟨"Export image data with less noise to ", fun _ => rfl⟩
  · intro e
    cases e with
    | resampling => exact ⟨"Export audio data with resampling to ", fun _ => rfl⟩
    | filter => exact ⟨"Export filtered audio data to ", fun _ => rfl⟩
